import Mathlib

/-!
Shallow embedding of the zkillboard interface repository
(`zkillboard_client.py` and `zkillboard_interface.py`).

The Transport layer (`ZKillboardClient.send_zkb_request_http`) is modelled as a
state machine consuming a list of network events: each GET/POST attempt made by
the Python code consumes the next event from the oracle list, which is either a
connection error, a timeout, or a received response.  The nested retry loops of
the source become structural recursion on that list; the `time.sleep` calls are
recorded in an explicit trace.

The Cache-Coordinator (`ZKillboardInterface.get_zkb_data`) is modelled as a pure
function from the cache store (a map from filename keys to cached documents),
the call arguments, and the outcome of the single Transport invocation, to the
produced result, the new cache store, the coordinator state that the caller can
read (`last_modified`, `is_last_data_updated`), and the list of Transport
invocations actually issued (so that "zero network calls" is observable).

External collaborators are modelled minimally: `dateutil.parser.parse` becomes
an abstract wrapper constructor (the coordinator never inspects parsed dates),
and JSON payloads are opaque atoms with `null` distinguished, because in Python
a decoded JSON `null` and the `None` of an implicit `return` are the same value.
-/

namespace ZKB

/-- Model of a parsed datetime: `dateutil.parser.parse` is an external library;
the code only stores and hands back its results, never inspects them, so a
parsed date is modelled as a wrapper around the raw header string. -/
structure DateTime where
  raw : String
deriving DecidableEq, Repr

/-- `dateutil.parser.parse` (imported as `parsedate` in both source files). -/
def parsedate (s : String) : DateTime := ⟨s⟩

/-! ## Transport: `zkillboard_client.py`, `send_zkb_request_http` -/

/-- The slice of an HTTP response that the Transport retry loop inspects:
`res.status_code` and the optional `Last-Modified` response header. -/
structure Response where
  status : Nat
  lastModified : Option String
deriving DecidableEq, Repr

/-- One network event per GET/POST attempt: the attempt either fails to
connect (`requests.ConnectionError`), times out (`requests.Timeout`), or
yields a response. -/
inductive NetEvent
  | connError
  | timeout
  | response (r : Response)
deriving DecidableEq, Repr

/-- Terminal outcome of `send_zkb_request_http`: the returned response, or the
exception that propagates out of the method (`raise_for_status`'s HTTPError,
a connection error re-raised after the bounded outer retry, or a timeout
re-raised by the bare `except` clause on the POST path). -/
inductive SendResult
  | ok (r : Response)
  | httpError (status : Nat)
  | connectionError
  | timeoutError
deriving DecidableEq, Repr

/-- What a finished `send_zkb_request_http` call leaves behind: its result,
the client's `self.__last_modified` field, and the trace of `time.sleep`
durations performed during retries. -/
structure TermOut where
  result : SendResult
  last_modified : Option DateTime
  sleeps : List Nat
deriving DecidableEq, Repr

/-- `self.__attempts_to_reconnect` (set in `ZKillboardClient.__init__`). -/
def attempts_to_reconnect : Nat := 5

/-- The retry state machine of `send_zkb_request_http`, lines 143-250 of
`zkillboard_client.py`.  `isGet` is `body is None` in the source.  State
variables mirror the Python locals: `httpConn` is `http_connection_times`,
`proxy` is `proxy_error_times`, `throttle` is `throttle_error_times`; `lm` is
`self.__last_modified` (reset to `None` at line 139) and `sleeps` accumulates
the delays.  Control flow transcribed from the source:

* GET attempts sit in an inner `while not requests_get_finished` loop whose
  `except (requests.ConnectionError, requests.Timeout): continue` retries both
  failure kinds without bound and without delay, so neither ever reaches the
  outer handlers;
* POST attempts have no inner loop: a connection error reaches the outer
  `except requests.exceptions.ConnectionError` handler, which retries up to
  `attempts_to_reconnect` times sleeping 1 between attempts (restarting the
  outer `try`, which resets `proxy_error_times` and `throttle_error_times`
  to 0), then re-raises; a timeout reaches the bare `except` and is re-raised;
* once a response is in hand, the logging block (guarded by `self.__logger`)
  parses a present `Last-Modified` header into `self.__last_modified`;
* 502/504 retry (shared `proxy_error_times` bound, no sleep), 503 retry
  (same bound, sleep `2 * proxy_error_times` after the increment), 520 retry
  (own `throttle_error_times` bound, sleep 5); exhausted or other statuses
  fall through to `res.raise_for_status()`, which raises for 4xx/5xx and
  otherwise lets the method return `res`.

`requests_get_times` is a counter used only inside log text, hence omitted.
The function returns `none` when the event oracle is exhausted (the real loop
would keep issuing attempts). -/
def send_loop (isGet logger : Bool) (events : List NetEvent)
    (httpConn proxy throttle : Nat) (lm : Option DateTime) (sleeps : List Nat) :
    Option TermOut :=
  match events with
  | [] => none
  | .connError :: rest =>
    if isGet then
      send_loop isGet logger rest httpConn proxy throttle lm sleeps
    else if httpConn < attempts_to_reconnect then
      send_loop isGet logger rest (httpConn + 1) 0 0 lm (sleeps ++ [1])
    else
      some ⟨.connectionError, lm, sleeps⟩
  | .timeout :: rest =>
    if isGet then
      send_loop isGet logger rest httpConn proxy throttle lm sleeps
    else
      some ⟨.timeoutError, lm, sleeps⟩
  | .response r :: rest =>
    let lm2 : Option DateTime :=
      if logger then
        match r.lastModified with
        | some t => some (parsedate t)
        | none => lm
      else lm
    if (r.status = 502 ∨ r.status = 504) ∧ proxy < attempts_to_reconnect then
      send_loop isGet logger rest httpConn (proxy + 1) throttle lm2 sleeps
    else if r.status = 503 ∧ proxy < attempts_to_reconnect then
      send_loop isGet logger rest httpConn (proxy + 1) throttle lm2 (sleeps ++ [2 * (proxy + 1)])
    else if r.status = 520 ∧ throttle < attempts_to_reconnect then
      send_loop isGet logger rest httpConn proxy (throttle + 1) lm2 (sleeps ++ [5])
    else if 400 ≤ r.status ∧ r.status < 600 then
      some ⟨.httpError r.status, lm2, sleeps⟩
    else
      some ⟨.ok r, lm2, sleeps⟩

/-- `send_zkb_request_http` entry: counters start at 0,
`self.__last_modified` is reset to `None` (line 139), no sleeps yet. -/
def send_zkb_request_http (isGet logger : Bool) (events : List NetEvent) :
    Option TermOut :=
  send_loop isGet logger events 0 0 0 none []

/-! ## Cache-Coordinator: `zkillboard_interface.py`, `get_zkb_data` -/

/-- A JSON payload as the coordinator sees it: opaque except for `null`,
which must be distinguished because Python's decoded JSON `null` is `None`,
the same value an implicit `return` produces. -/
inductive Json
  | null
  | val (s : String)
deriving DecidableEq, Repr

/-- The `"headers"` dictionary of a cache file.  `__get_cached_headers` writes
at most the keys `date`, `expires`, `last-modified`; the sticky-error dumps
write exactly `Http-Error` with an integer status.  Each possible key is a
field; `none` means the key is absent. -/
structure CacheHeaders where
  date : Option String
  expires : Option String
  last_modified : Option String
  httpError : Option Nat
deriving DecidableEq, Repr

/-- One cache file as written by `__dump_cache_into_file`:
`{"headers": ..., "json": ...}`.  Both keys are always present in files this
code writes; a JSON `null` payload is `Json.null`. -/
structure CachedDoc where
  headers : CacheHeaders
  json : Json
deriving DecidableEq, Repr

/-- The filesystem cache: a map from filenames to cache files. -/
def Cache : Type := String → Option CachedDoc

/-- `__take_cache_from_file`: read the cache file named `f_name`, if any. -/
def take_cache_from_file (st : Cache) (f_name : String) : Option CachedDoc :=
  st f_name

/-- `__dump_cache_into_file`: (over)write the cache file named `f_name` with
`{"headers": data_headers, "json": data_json}`. -/
def dump_cache_into_file (st : Cache) (f_name : String)
    (data_headers : CacheHeaders) (data_json : Json) : Cache :=
  fun k => if k = f_name then some ⟨data_headers, data_json⟩ else st k

/-- Python `url[:-1]` applied when `url[-1:] == '/'`: strip one trailing
slash, if present. -/
def strip_one_trailing_slash (url : String) : String :=
  if url.data.getLast? = some '/' then ⟨url.data.dropLast⟩ else url

/-- Python `str.replace` for a single-character pattern and a
single-character replacement. -/
def replace_char (s : String) (c d : Char) : String :=
  ⟨s.data.map (fun x => if x = c then d else x)⟩

/-- Python `str.replace(c, '')` for a single-character pattern: delete every
occurrence. -/
def drop_char (s : String) (c : Char) : String :=
  ⟨s.data.filter (fun x => ¬ x = c)⟩

/-- `__get_f_name`: normalise a raw url into the cache filename
`{dir}/.cache_{nm}.json`, stripping one trailing slash and substituting
`/`→`_`, `=`→`-`, deleting `?`, and `&`→`.`. -/
def get_f_name (cache_dir url : String) : String :=
  let u1 := strip_one_trailing_slash url
  let u2 := replace_char u1 '/' '_'
  let u3 := replace_char u2 '=' '-'
  let u4 := drop_char u3 '?'
  let u5 := replace_char u4 '&' '.'
  cache_dir ++ "/.cache_" ++ u5 ++ ".json"

/-- The slice of a Transport response the coordinator uses on its success
path: the status code, the three headers `__get_cached_headers` extracts,
and the decoded body `data.json()`. -/
structure TResponse where
  status : Nat
  date : Option String
  expires : Option String
  last_modified : Option String
  body : Json
deriving DecidableEq, Repr

/-- `__get_cached_headers`: keep `Date`, `Expires`, `Last-Modified` (lower
cased keys) of the response headers; never writes an `Http-Error` key. -/
def get_cached_headers (r : TResponse) : CacheHeaders :=
  ⟨r.date, r.expires, r.last_modified, none⟩

/-- Outcome of the single `self.__client.send_zkb_request_http` call as the
coordinator observes it: a returned response, a raised
`requests.exceptions.HTTPError` carrying `err.response.status_code`, or any
other raised exception (connection errors, timeouts, ...). -/
inductive TransportOutcome
  | resp (r : TResponse)
  | httpErr (status : Nat)
  | otherExc
deriving DecidableEq, Repr

/-- The Transport invocation's outcome together with the client state
`self.__client.last_modified` as it stands after the call (read by the
coordinator on the fresh-response path). -/
structure TransportResult where
  outcome : TransportOutcome
  client_last_modified : Option DateTime
deriving DecidableEq, Repr

/-- What a `get_zkb_data` call produces toward its caller: a returned
payload, a propagated `requests.exceptions.HTTPError` of some status, or a
propagated non-HTTP exception. -/
inductive FetchResult
  | ok (payload : Json)
  | httpError (status : Nat)
  | otherError
deriving DecidableEq, Repr

/-- The full observable effect of one `get_zkb_data` call: the result, the
cache store after the call, the coordinator fields `self.__last_modified` and
`self.__is_last_data_updated`, and the list of Transport invocations issued
(each recorded as the conditional `last_modified` string and `body` passed). -/
structure FetchOut where
  result : FetchResult
  cache : Cache
  last_modified : Option DateTime
  is_last_data_updated : Bool
  calls : List (Option String × Option Json)

/-- Offline branch of `get_zkb_data` (lines 168-177) for an existing cached
document: a stored `Http-Error` marker is replayed via
`__esi_raise_for_status` with the stored code; otherwise the stored payload
is returned.  `self.__last_modified` keeps the `None` set at line 159. -/
def offline_fetch (st : Cache) (d : CachedDoc) : FetchOut :=
  match d.headers.httpError with
  | some code => ⟨.httpError code, st, none, false, []⟩
  | none => ⟨.ok d.json, st, none, false, []⟩

/-- Online branch of `get_zkb_data` (lines 178-214).  `last_modified` is the
conditional timestamp string extracted from the cached document (if any);
the single Transport call is recorded in `calls`.

* response with status 304: return the cached payload, set
  `self.__last_modified` from the cached document's stored `last-modified`
  header, no cache write; with no cached document the subscript
  `cached_data["headers"]` raises a `TypeError`, re-raised by the bare
  `except` clause;
* any other response: dump `{headers, json}` to the cache, mark updated,
  `self.__last_modified := self.__client.last_modified`, return the body;
* `HTTPError` with status 403 or 404: dump the sticky document
  `{"Http-Error": code}` with a `null` payload, re-raise;
* `HTTPError` with any other status: the `except` handler's `if/elif` falls
  through without `raise`, so Python suppresses the exception and the method
  ends, implicitly returning `None` — no cache write, no error to the caller;
* any other exception: re-raised by the bare `except` clause, no cache
  write. -/
def online_fetch (f_name : String) (st : Cache) (cached_data : Option CachedDoc)
    (last_modified : Option String) (body : Option Json) (tr : TransportResult) :
    FetchOut :=
  match tr.outcome with
  | .resp r =>
    if r.status = 304 then
      match cached_data with
      | none => ⟨.otherError, st, none, false, [(last_modified, body)]⟩
      | some d =>
        ⟨.ok d.json, st, d.headers.last_modified.map parsedate, false,
          [(last_modified, body)]⟩
    else
      ⟨.ok r.body, dump_cache_into_file st f_name (get_cached_headers r) r.body,
        tr.client_last_modified, true, [(last_modified, body)]⟩
  | .httpErr code =>
    if code = 403 then
      ⟨.httpError code, dump_cache_into_file st f_name ⟨none, none, none, some 403⟩ .null,
        none, false, [(last_modified, body)]⟩
    else if code = 404 then
      ⟨.httpError code, dump_cache_into_file st f_name ⟨none, none, none, some 404⟩ .null,
        none, false, [(last_modified, body)]⟩
    else
      ⟨.ok .null, st, none, false, [(last_modified, body)]⟩
  | .otherExc => ⟨.otherError, st, none, false, [(last_modified, body)]⟩

/-- Body of `get_zkb_data` after the cache lookup (lines 158-214).  In a
cache file written by this code the `"json"` and `"headers"` keys are always
present and `"headers"` is a dict, so the checks `("json" in cached_data)`
(line 160) and `("headers" in cached_data) and (type(...) is dict)`
(lines 186-187) are identically true for an existing document.

Branch order as in the source: the trust-cache short-circuit (lines 160-167)
requires online mode, `fully_trust_cache`, an existing document, and no
`Http-Error` marker; a sticky document falls through past it.  Then the
offline branch, then the online branch. -/
def get_zkb_data_core (f_name : String) (st : Cache) (cached_data : Option CachedDoc)
    (body : Option Json) (fully_trust_cache offline_mode : Bool)
    (tr : TransportResult) : FetchOut :=
  match cached_data with
  | some d =>
    if offline_mode = false ∧ fully_trust_cache = true ∧ d.headers.httpError = none then
      ⟨.ok d.json, st, d.headers.last_modified.map parsedate, false, []⟩
    else if offline_mode then
      offline_fetch st d
    else
      online_fetch f_name st (some d) d.headers.last_modified body tr
  | none =>
    if offline_mode then
      ⟨.ok .null, st, none, false, []⟩
    else
      online_fetch f_name st none none body tr

/-- `get_zkb_data` (lines 149-214).  `prev_last_modified` and
`prev_is_updated` are the coordinator fields `self.__last_modified` and
`self.__is_last_data_updated` as left by an earlier call; lines 158-159
overwrite both before any branch reads them, so they are dead inputs.
`tr` is the outcome the (at most one) Transport invocation would produce. -/
def get_zkb_data (cache_dir : String) (st : Cache) (url : String)
    (body : Option Json) (fully_trust_cache offline_mode : Bool)
    (_prev_last_modified : Option DateTime) (_prev_is_updated : Bool)
    (tr : TransportResult) : FetchOut :=
  get_zkb_data_core (get_f_name cache_dir url) st
    (take_cache_from_file st (get_f_name cache_dir url))
    body fully_trust_cache offline_mode tr

end ZKB
namespace ZKB

/-- Helper: with logging enabled, whenever `send_loop` terminates by returning
a response, the recorded `last_modified` is the parse of that response's
`Last-Modified` header when the header is present. -/
theorem send_loop_ok_last_modified (isGet : Bool) :
    ∀ (events : List NetEvent) (hc p th : Nat) (lm : Option DateTime)
      (sleeps : List Nat) (out : TermOut) (r : Response) (t : String),
      send_loop isGet true events hc p th lm sleeps = some out →
      out.result = .ok r → r.lastModified = some t →
      out.last_modified = some (parsedate t) := by
  intro events
  induction events with
  | nil =>
    intro hc p th lm sleeps out r t hrun hok hlm
    simp [send_loop] at hrun
  | cons e rest ih =>
    intro hc p th lm sleeps out r t hrun hok hlm
    cases e with
    | connError =>
      rw [send_loop] at hrun
      split at hrun
      · exact ih _ _ _ _ _ _ _ _ hrun hok hlm
      · split at hrun
        · exact ih _ _ _ _ _ _ _ _ hrun hok hlm
        · obtain rfl := Option.some.inj hrun
          simp at hok
    | timeout =>
      rw [send_loop] at hrun
      split at hrun
      · exact ih _ _ _ _ _ _ _ _ hrun hok hlm
      · obtain rfl := Option.some.inj hrun
        simp at hok
    | response r0 =>
      rw [send_loop] at hrun
      split at hrun
      · exact ih _ _ _ _ _ _ _ _ hrun hok hlm
      · split at hrun
        · exact ih _ _ _ _ _ _ _ _ hrun hok hlm
        · split at hrun
          · exact ih _ _ _ _ _ _ _ _ hrun hok hlm
          · split at hrun
            · obtain rfl := Option.some.inj hrun
              simp at hok
            · obtain rfl := Option.some.inj hrun
              simp at hok
              subst hok
              simp [hlm]

/-- Helper: with logging disabled, `send_loop` never changes the
`last_modified` state it was given. -/
theorem send_loop_no_logger_last_modified (isGet : Bool) :
    ∀ (events : List NetEvent) (hc p th : Nat) (lm : Option DateTime)
      (sleeps : List Nat) (out : TermOut),
      send_loop isGet false events hc p th lm sleeps = some out →
      out.last_modified = lm := by
  intro events
  induction events with
  | nil =>
    intro hc p th lm sleeps out hrun
    simp [send_loop] at hrun
  | cons e rest ih =>
    intro hc p th lm sleeps out hrun
    cases e with
    | connError =>
      rw [send_loop] at hrun
      split at hrun
      · exact ih _ _ _ _ _ _ hrun
      · split at hrun
        · exact ih _ _ _ _ _ _ hrun
        · obtain rfl := Option.some.inj hrun
          rfl
    | timeout =>
      rw [send_loop] at hrun
      split at hrun
      · exact ih _ _ _ _ _ _ hrun
      · obtain rfl := Option.some.inj hrun
        rfl
    | response r0 =>
      rw [send_loop] at hrun
      split at hrun
      · exact ih _ _ _ _ _ _ hrun
      · split at hrun
        · exact ih _ _ _ _ _ _ hrun
        · split at hrun
          · exact ih _ _ _ _ _ _ hrun
          · split at hrun
            · obtain rfl := Option.some.inj hrun
              rfl
            · obtain rfl := Option.some.inj hrun
              rfl

/-- Helper: on the GET path, connection errors are absorbed by the inner
retry loop with no state change and no delay, however many there are. -/
theorem send_loop_get_conn_absorbed (logger : Bool) (r : Response) :
    ∀ (n : Nat) (hc p th : Nat) (lm : Option DateTime) (sleeps : List Nat),
      send_loop true logger (List.replicate n .connError ++ [.response r]) hc p th lm sleeps =
        send_loop true logger [.response r] hc p th lm sleeps := by
  intro n
  induction n with
  | zero => intro hc p th lm sleeps; rfl
  | succ k ih =>
    intro hc p th lm sleeps
    rw [List.replicate_succ, List.cons_append, send_loop]
    simp only [if_pos rfl]
    exact ih hc p th lm sleeps

end ZKB

namespace ZKB

/-- **C2** (corrected): the claim as stated fails — the update of the
client's `last_modified` lives inside the `if self.__logger:` block, so it
happens only when logging is enabled.  Amended claim, proved here: with
logging enabled, whenever `send_zkb_request_http` returns a response whose
`Last-Modified` header is present, the client's last-observed value is the
parsed header value; with logging disabled, the value is never updated and
remains `None` whatever the traffic was. -/
theorem C2_last_modified_vs_logger :
    (∀ (isGet : Bool) (events : List NetEvent) (out : TermOut) (r : Response) (t : String),
        send_zkb_request_http isGet true events = some out →
        out.result = .ok r → r.lastModified = some t →
        out.last_modified = some (parsedate t))
  ∧ (∀ (isGet : Bool) (events : List NetEvent) (out : TermOut),
        send_zkb_request_http isGet false events = some out →
        out.last_modified = none) := by
  constructor
  · intro isGet events out r t hrun hok hlm
    exact send_loop_ok_last_modified isGet events 0 0 0 none [] out r t hrun hok hlm
  · intro isGet events out hrun
    exact send_loop_no_logger_last_modified isGet events 0 0 0 none [] out hrun

/-- **C2** counterexample: with logging disabled, a terminal 200 response
carrying `Last-Modified: T` leaves the client's last-observed value at
`None` — logging configuration does affect observable state, refuting the
claim as stated. -/
theorem C2_counterexample :
    send_zkb_request_http true false [.response ⟨200, some "T"⟩] =
      some ⟨.ok ⟨200, some "T"⟩, none, []⟩ := by decide

/-- Witness for `C2_last_modified_vs_logger` at a concrete run. -/
theorem C2_witness :
    send_zkb_request_http true true [.response ⟨200, some "T"⟩] =
      some ⟨.ok ⟨200, some "T"⟩, some (parsedate "T"), []⟩
    ∧ (⟨.ok ⟨200, some "T"⟩, some (parsedate "T"), []⟩ : TermOut).last_modified =
        some (parsedate "T") :=
  ⟨by decide,
   C2_last_modified_vs_logger.1 true [.response ⟨200, some "T"⟩]
     ⟨.ok ⟨200, some "T"⟩, some (parsedate "T"), []⟩ ⟨200, some "T"⟩ "T"
     (by decide) rfl rfl⟩

/-- **C3** (corrected): connection errors are retried with the bounded
5-attempt / 1-unit-delay policy only on the POST path.  On the GET path the
inner `except (requests.ConnectionError, requests.Timeout): continue` loop
absorbs connection errors without bound and without delay, so they never
reach the bounded outer handler.  Proved: (a) a POST hitting 6 consecutive
connection failures sleeps `[1,1,1,1,1]` and then re-raises the connection
error as terminal; (b) a GET hitting any number of consecutive connection
failures followed by a 200 succeeds with no sleeps and no error. -/
theorem C3_connection_retry_policy :
    (∀ (logger : Bool) (rest : List NetEvent),
        send_zkb_request_http false logger (List.replicate 6 .connError ++ rest) =
          some ⟨.connectionError, none, [1, 1, 1, 1, 1]⟩)
  ∧ (∀ (logger : Bool) (n : Nat),
        send_zkb_request_http true logger
            (List.replicate n .connError ++ [.response ⟨200, none⟩]) =
          some ⟨.ok ⟨200, none⟩, none, []⟩) := by
  constructor
  · intro logger rest
    rfl
  · intro logger n
    rw [send_zkb_request_http, send_loop_get_conn_absorbed]
    cases logger <;> rfl

/-- **C3** counterexample: a GET request suffering 6 consecutive
connection-establishment failures is not terminated with a re-raised
connection error and incurs no 1-unit delays; it silently succeeds on the
7th attempt — refuting the claim that connection failures are retried at
most 5 times with a 1-unit delay for every request. -/
theorem C3_counterexample :
    send_zkb_request_http true true (List.replicate 6 .connError ++ [.response ⟨200, none⟩]) =
      some ⟨.ok ⟨200, none⟩, none, []⟩ := by decide

/-- **C6** (confirmed): six consecutive 503 responses produce exactly five
retries with sleeps `[2,4,6,8,10]`, and the sixth 503 falls through to
`raise_for_status`, which raises `HTTPError(503)` as terminal. -/
theorem C6_503_bounded_retry :
    ∀ (isGet logger : Bool),
      send_zkb_request_http isGet logger (List.replicate 6 (.response ⟨503, none⟩)) =
        some ⟨.httpError 503, none, [2, 4, 6, 8, 10]⟩ := by decide

end ZKB

namespace ZKB

/-- Helper: `get_zkb_data` is the core body applied to the cache lookup. -/
theorem get_zkb_data_eq_core (cache_dir : String) (st : Cache) (url : String)
    (body : Option Json) (t o : Bool) (plm : Option DateTime) (pup : Bool)
    (tr : TransportResult) :
    get_zkb_data cache_dir st url body t o plm pup tr =
      get_zkb_data_core (get_f_name cache_dir url) st (st (get_f_name cache_dir url))
        body t o tr := rfl

/-- Helper: branch selection — trust-cache short-circuit taken. -/
theorem core_trust_hit (f_name : String) (st : Cache) (d : CachedDoc)
    (body : Option Json) (tr : TransportResult) (h : d.headers.httpError = none) :
    get_zkb_data_core f_name st (some d) body true false tr =
      ⟨.ok d.json, st, d.headers.last_modified.map parsedate, false, []⟩ := by
  simp [get_zkb_data_core, h]

/-- Helper: branch selection — online mode, existing document, trust-cache
short-circuit not taken. -/
theorem core_network (f_name : String) (st : Cache) (d : CachedDoc)
    (body : Option Json) (trust : Bool) (tr : TransportResult)
    (h : ¬ (trust = true ∧ d.headers.httpError = none)) :
    get_zkb_data_core f_name st (some d) body trust false tr =
      online_fetch f_name st (some d) d.headers.last_modified body tr := by
  cases trust with
  | false => simp [get_zkb_data_core]
  | true =>
    have hE : ¬ d.headers.httpError = none := fun hE => h ⟨rfl, hE⟩
    simp [get_zkb_data_core, hE]

/-- Helper: branch selection — offline mode with an existing document. -/
theorem core_offline_some (f_name : String) (st : Cache) (d : CachedDoc)
    (body : Option Json) (trust : Bool) (tr : TransportResult) :
    get_zkb_data_core f_name st (some d) body trust true tr = offline_fetch st d := rfl

/-- Helper: branch selection — online mode with no cached document. -/
theorem core_none_online (f_name : String) (st : Cache) (body : Option Json)
    (trust : Bool) (tr : TransportResult) :
    get_zkb_data_core f_name st none body trust false tr =
      online_fetch f_name st none none body tr := rfl

/-- Helper: every branch of `online_fetch` records exactly one Transport
invocation, carrying the conditional timestamp and the body. -/
theorem online_fetch_calls (f_name : String) (st : Cache) (cd : Option CachedDoc)
    (lms : Option String) (body : Option Json) (tr : TransportResult) :
    (online_fetch f_name st cd lms body tr).calls = [(lms, body)] := by
  rcases tr with ⟨o, clm⟩
  cases o with
  | resp r =>
    simp only [online_fetch]
    split
    · cases cd <;> rfl
    · rfl
  | httpErr c =>
    simp only [online_fetch]
    split
    · rfl
    · split <;> rfl
  | otherExc => rfl

/-- Helper: the online branch's handling of a raised `HTTPError(403)` or
`HTTPError(404)`: dump the sticky document, re-raise. -/
theorem online_fetch_httpErr_sticky (f_name : String) (st : Cache)
    (cd : Option CachedDoc) (lms : Option String) (body : Option Json)
    (clm : Option DateTime) (code : Nat) (hcode : code = 403 ∨ code = 404) :
    online_fetch f_name st cd lms body ⟨.httpErr code, clm⟩ =
      ⟨.httpError code,
        dump_cache_into_file st f_name ⟨none, none, none, some code⟩ .null,
        none, false, [(lms, body)]⟩ := by
  rcases hcode with rfl | rfl <;> rfl

/-- Helper: reading back the file just dumped. -/
theorem dump_cache_lookup_self (st : Cache) (f_name : String) (h : CacheHeaders)
    (j : Json) : dump_cache_into_file st f_name h j f_name = some ⟨h, j⟩ := by
  unfold dump_cache_into_file
  rw [if_pos rfl]

/-- Helper: an offline fetch on a cache holding a sticky-error document for
the url re-raises the stored status code. -/
theorem offline_replay_sticky (cache_dir : String) (st2 : Cache) (url : String)
    (code : Nat) (body2 : Option Json) (trust2 : Bool) (plm2 : Option DateTime)
    (pup2 : Bool) (tr2 : TransportResult)
    (h : st2 (get_f_name cache_dir url) = some ⟨⟨none, none, none, some code⟩, .null⟩) :
    (get_zkb_data cache_dir st2 url body2 trust2 true plm2 pup2 tr2).result =
      .httpError code := by
  rw [get_zkb_data_eq_core, h]
  rfl

end ZKB

namespace ZKB

/-- **C1** (code bug): in `get_zkb_data`, the `except HTTPError` handler's
`if/elif` covers only 403 and 404 and falls through without `raise` for any
other status, so Python suppresses the exception and the method implicitly
returns `None`.  Evaluated here at a concrete failing input: online mode,
empty cache, Transport raises `HTTPError(500)` — the call returns normally
with `None` (no error reaches the caller), though no cache write occurs. -/
theorem C1_unclassified_error_swallowed :
    (get_zkb_data "." (fun _ => none) "u" none false false none false
        ⟨.httpErr 500, none⟩).result = .ok .null
    ∧ (get_zkb_data "." (fun _ => none) "u" none false false none false
        ⟨.httpErr 500, none⟩).cache = (fun _ => none)
    ∧ (get_zkb_data "." (fun _ => none) "u" none false false none false
        ⟨.httpErr 500, none⟩).calls = [(none, none)] :=
  ⟨rfl, rfl, rfl⟩

/-- **C4** (confirmed): an online fetch whose Transport invocation raises
`HTTPError(403)` or `HTTPError(404)` persists the sticky-error document
`{"Http-Error": code}` with the payload cleared, re-raises the same error,
and every subsequent offline fetch of the same url re-raises an
`HTTPError` with the same stored status code. -/
theorem C4_sticky_error_persistence (cache_dir : String) (st : Cache) (url : String)
    (body : Option Json) (trust : Bool) (plm : Option DateTime) (pup : Bool)
    (clm : Option DateTime) (code : Nat)
    (hcode : code = 403 ∨ code = 404)
    (hnet : (get_zkb_data cache_dir st url body trust false plm pup
        ⟨.httpErr code, clm⟩).calls ≠ []) :
    (get_zkb_data cache_dir st url body trust false plm pup
        ⟨.httpErr code, clm⟩).result = .httpError code
    ∧ (get_zkb_data cache_dir st url body trust false plm pup
        ⟨.httpErr code, clm⟩).cache (get_f_name cache_dir url) =
        some ⟨⟨none, none, none, some code⟩, .null⟩
    ∧ ∀ (body2 : Option Json) (trust2 : Bool) (plm2 : Option DateTime) (pup2 : Bool)
        (tr2 : TransportResult),
        (get_zkb_data cache_dir
            ((get_zkb_data cache_dir st url body trust false plm pup
              ⟨.httpErr code, clm⟩).cache)
            url body2 trust2 true plm2 pup2 tr2).result = .httpError code := by
  rw [get_zkb_data_eq_core] at hnet ⊢
  rcases hd : st (get_f_name cache_dir url) with _ | d
  · rw [core_none_online, online_fetch_httpErr_sticky _ _ _ _ _ _ _ hcode]
    refine ⟨rfl, dump_cache_lookup_self _ _ _ _, ?_⟩
    intro body2 trust2 plm2 pup2 tr2
    exact offline_replay_sticky cache_dir _ url code body2 trust2 plm2 pup2 tr2
      (dump_cache_lookup_self _ _ _ _)
  · rw [hd] at hnet
    have hcond : ¬ (trust = true ∧ d.headers.httpError = none) := by
      intro hc
      obtain ⟨ht, hE⟩ := hc
      subst ht
      rw [core_trust_hit _ _ _ _ _ hE] at hnet
      exact hnet rfl
    rw [core_network _ _ _ _ _ _ hcond,
      online_fetch_httpErr_sticky _ _ _ _ _ _ _ hcode]
    refine ⟨rfl, dump_cache_lookup_self _ _ _ _, ?_⟩
    intro body2 trust2 plm2 pup2 tr2
    exact offline_replay_sticky cache_dir _ url code body2 trust2 plm2 pup2 tr2
      (dump_cache_lookup_self _ _ _ _)

/-- Witness for `C4_sticky_error_persistence` at a concrete input. -/
theorem C4_witness :
    (403 = 403 ∨ 403 = 404)
    ∧ (get_zkb_data "." (fun _ => none) "u" none false false none false
        ⟨.httpErr 403, none⟩).calls ≠ []
    ∧ (get_zkb_data "." (fun _ => none) "u" none false false none false
        ⟨.httpErr 403, none⟩).result = .httpError 403 :=
  ⟨Or.inl rfl, by decide,
   (C4_sticky_error_persistence "." (fun _ => none) "u" none false none false none 403
     (Or.inl rfl) (by decide)).1⟩

end ZKB

namespace ZKB

/-- **C7** (confirmed): an online fetch of a resource with an existing cached
document, for which the Transport reports a 304, returns the cached payload
unchanged, leaves the cache byte-identical (the very same store), and reports
the cached document's stored `last-modified` timestamp. -/
theorem C7_304_short_circuit (cache_dir : String) (st : Cache) (url : String)
    (body : Option Json) (trust : Bool) (plm : Option DateTime) (pup : Bool)
    (clm : Option DateTime) (d : CachedDoc) (r : TResponse)
    (hdoc : st (get_f_name cache_dir url) = some d)
    (h304 : r.status = 304)
    (hnet : (get_zkb_data cache_dir st url body trust false plm pup
        ⟨.resp r, clm⟩).calls ≠ []) :
    get_zkb_data cache_dir st url body trust false plm pup ⟨.resp r, clm⟩ =
      ⟨.ok d.json, st, d.headers.last_modified.map parsedate, false,
        [(d.headers.last_modified, body)]⟩ := by
  rw [get_zkb_data_eq_core] at hnet ⊢
  rw [hdoc] at hnet ⊢
  have hcond : ¬ (trust = true ∧ d.headers.httpError = none) := by
    intro hc
    obtain ⟨ht, hE⟩ := hc
    subst ht
    rw [core_trust_hit _ _ _ _ _ hE] at hnet
    exact hnet rfl
  rw [core_network _ _ _ _ _ _ hcond]
  simp [online_fetch, h304]

/-- Witness for `C7_304_short_circuit` at a concrete input. -/
theorem C7_witness :
    (dump_cache_into_file (fun _ => none) (get_f_name "." "u")
        ⟨none, none, some "T", none⟩ (.val "p") (get_f_name "." "u") =
      some ⟨⟨none, none, some "T", none⟩, .val "p"⟩)
    ∧ ((304 : Nat) = 304)
    ∧ (get_zkb_data "." (dump_cache_into_file (fun _ => none) (get_f_name "." "u")
          ⟨none, none, some "T", none⟩ (.val "p")) "u" none false false none false
          ⟨.resp ⟨304, none, none, none, .null⟩, none⟩).calls ≠ []
    ∧ get_zkb_data "." (dump_cache_into_file (fun _ => none) (get_f_name "." "u")
          ⟨none, none, some "T", none⟩ (.val "p")) "u" none false false none false
          ⟨.resp ⟨304, none, none, none, .null⟩, none⟩ =
        ⟨.ok (.val "p"),
          dump_cache_into_file (fun _ => none) (get_f_name "." "u")
            ⟨none, none, some "T", none⟩ (.val "p"),
          some (parsedate "T"), false, [(some "T", none)]⟩ :=
  ⟨by decide, rfl, by decide,
   C7_304_short_circuit "." _ "u" none false none false none
     ⟨⟨none, none, some "T", none⟩, .val "p"⟩ ⟨304, none, none, none, .null⟩
     (by decide) rfl (by decide)⟩

/-- **C8** (confirmed): in online mode with `fully_trust_cache` set, an
existing cached document that carries a payload and no sticky-error marker is
returned immediately: no Transport invocation, no cache write, and the
reported `last_modified` comes from the document's stored header. -/
theorem C8_trust_cache_short_circuit (cache_dir : String) (st : Cache) (url : String)
    (body : Option Json) (plm : Option DateTime) (pup : Bool) (tr : TransportResult)
    (d : CachedDoc)
    (hdoc : st (get_f_name cache_dir url) = some d)
    (_hpayload : d.json ≠ .null)
    (hsticky : d.headers.httpError = none) :
    get_zkb_data cache_dir st url body true false plm pup tr =
      ⟨.ok d.json, st, d.headers.last_modified.map parsedate, false, []⟩ := by
  rw [get_zkb_data_eq_core, hdoc]
  exact core_trust_hit _ _ _ _ _ hsticky

/-- Witness for `C8_trust_cache_short_circuit` at a concrete input. -/
theorem C8_witness :
    (dump_cache_into_file (fun _ => none) (get_f_name "." "u")
        ⟨none, none, some "T", none⟩ (.val "p") (get_f_name "." "u") =
      some ⟨⟨none, none, some "T", none⟩, .val "p"⟩)
    ∧ ((Json.val "p") ≠ .null)
    ∧ get_zkb_data "." (dump_cache_into_file (fun _ => none) (get_f_name "." "u")
          ⟨none, none, some "T", none⟩ (.val "p")) "u" none true false none false
          ⟨.httpErr 500, none⟩ =
        ⟨.ok (.val "p"),
          dump_cache_into_file (fun _ => none) (get_f_name "." "u")
            ⟨none, none, some "T", none⟩ (.val "p"),
          some (parsedate "T"), false, []⟩ :=
  ⟨by decide, by decide,
   C8_trust_cache_short_circuit "." _ "u" none none false ⟨.httpErr 500, none⟩
     ⟨⟨none, none, some "T", none⟩, .val "p"⟩ (by decide) (by decide) rfl⟩

/-- **C10** (confirmed): in online mode with `fully_trust_cache` set, a
cached document carrying the sticky `Http-Error` marker is not served from
cache: the call falls through the short-circuit and issues exactly one fresh
Transport request (with the document's stored conditional timestamp); a
fresh non-304 response is then returned rather than the stored error. -/
theorem C10_trust_sticky_not_short_circuited (cache_dir : String) (st : Cache)
    (url : String) (body : Option Json) (plm : Option DateTime) (pup : Bool)
    (tr : TransportResult) (d : CachedDoc) (code : Nat)
    (hdoc : st (get_f_name cache_dir url) = some d)
    (hsticky : d.headers.httpError = some code) :
    (get_zkb_data cache_dir st url body true false plm pup tr).calls =
      [(d.headers.last_modified, body)]
    ∧ ∀ r : TResponse, tr.outcome = .resp r → ¬ r.status = 304 →
        (get_zkb_data cache_dir st url body true false plm pup tr).result =
          .ok r.body := by
  have hcond : ¬ ((true : Bool) = true ∧ d.headers.httpError = none) := by
    intro hc
    rw [hsticky] at hc
    exact Option.noConfusion hc.2
  rw [get_zkb_data_eq_core, hdoc, core_network _ _ _ _ _ _ hcond]
  refine ⟨online_fetch_calls _ _ _ _ _ _, ?_⟩
  intro r htr h304
  rcases tr with ⟨o, clm⟩
  simp only at htr
  subst htr
  simp [online_fetch, h304]

/-- Witness for `C10_trust_sticky_not_short_circuited` at a concrete input. -/
theorem C10_witness :
    (dump_cache_into_file (fun _ => none) (get_f_name "." "u")
        ⟨none, none, none, some 404⟩ .null (get_f_name "." "u") =
      some ⟨⟨none, none, none, some 404⟩, .null⟩)
    ∧ (get_zkb_data "." (dump_cache_into_file (fun _ => none) (get_f_name "." "u")
          ⟨none, none, none, some 404⟩ .null) "u" none true false none false
          ⟨.resp ⟨200, none, none, none, .val "fresh"⟩, none⟩).calls = [(none, none)] :=
  ⟨by decide,
   (C10_trust_sticky_not_short_circuited "." _ "u" none none false
     ⟨.resp ⟨200, none, none, none, .val "fresh"⟩, none⟩
     ⟨⟨none, none, none, some 404⟩, .null⟩ 404 (by decide) rfl).1⟩

end ZKB

namespace ZKB

/-- **C5** (corrected): `self.__last_modified` is reset to `None` at the
start of every call, so it is never a stale prior value, and the trust-cache,
304, and fresh-response paths report the documented timestamps; but on the
offline path the field is never set, so an offline cache-served result
reports `None` even when the cached document stores a timestamp — refuting
the claim that cache-served results always report the stored timestamp. -/
theorem C5_last_modified_policy (cache_dir : String) (st : Cache) (url : String)
    (body : Option Json) (trust offline : Bool) (plm plm2 : Option DateTime)
    (pup pup2 : Bool) (tr : TransportResult) :
    (get_zkb_data cache_dir st url body trust offline plm pup tr =
       get_zkb_data cache_dir st url body trust offline plm2 pup2 tr)
    ∧ (offline = true →
        (get_zkb_data cache_dir st url body trust offline plm pup tr).last_modified = none)
    ∧ (∀ d : CachedDoc, offline = false → trust = true →
        st (get_f_name cache_dir url) = some d → d.headers.httpError = none →
        (get_zkb_data cache_dir st url body trust offline plm pup tr).last_modified =
          d.headers.last_modified.map parsedate)
    ∧ (∀ (d : CachedDoc) (r : TResponse), offline = false →
        st (get_f_name cache_dir url) = some d →
        tr.outcome = .resp r → r.status = 304 →
        (get_zkb_data cache_dir st url body trust offline plm pup tr).calls ≠ [] →
        (get_zkb_data cache_dir st url body trust offline plm pup tr).last_modified =
          d.headers.last_modified.map parsedate)
    ∧ (∀ r : TResponse, offline = false →
        tr.outcome = .resp r → ¬ r.status = 304 →
        (get_zkb_data cache_dir st url body trust offline plm pup tr).calls ≠ [] →
        (get_zkb_data cache_dir st url body trust offline plm pup tr).last_modified =
          tr.client_last_modified) := by
  refine ⟨rfl, ?_, ?_, ?_, ?_⟩
  · intro hoff
    subst hoff
    rw [get_zkb_data_eq_core]
    rcases hd : st (get_f_name cache_dir url) with _ | d
    · rfl
    · rw [core_offline_some]
      rcases d with ⟨⟨dd, de, dl, dE⟩, dj⟩
      cases dE <;> rfl
  · intro d hoff ht hdoc hE
    subst hoff
    subst ht
    rw [get_zkb_data_eq_core, hdoc, core_trust_hit _ _ _ _ _ hE]
  · intro d r hoff hdoc htr h304 hnet
    subst hoff
    rw [get_zkb_data_eq_core] at hnet ⊢
    rw [hdoc] at hnet ⊢
    have hcond : ¬ (trust = true ∧ d.headers.httpError = none) := by
      intro hc
      obtain ⟨ht, hE⟩ := hc
      subst ht
      rw [core_trust_hit _ _ _ _ _ hE] at hnet
      exact hnet rfl
    rw [core_network _ _ _ _ _ _ hcond]
    rcases tr with ⟨o, clm⟩
    simp only at htr
    subst htr
    simp [online_fetch, h304]
  · intro r hoff htr h304 hnet
    subst hoff
    rw [get_zkb_data_eq_core] at hnet ⊢
    rcases hd : st (get_f_name cache_dir url) with _ | d
    · rw [core_none_online]
      rcases tr with ⟨o, clm⟩
      simp only at htr
      subst htr
      simp [online_fetch, h304]
    · rw [hd] at hnet
      have hcond : ¬ (trust = true ∧ d.headers.httpError = none) := by
        intro hc
        obtain ⟨ht, hE⟩ := hc
        subst ht
        rw [core_trust_hit _ _ _ _ _ hE] at hnet
        exact hnet rfl
      rw [core_network _ _ _ _ _ _ hcond]
      rcases tr with ⟨o, clm⟩
      simp only at htr
      subst htr
      simp [online_fetch, h304]

/-- **C5** counterexample: an offline fetch serving a cached document whose
stored `last-modified` header is `"T"` returns the payload but reports
`last_modified = None`, not the stored timestamp. -/
theorem C5_counterexample :
    (get_zkb_data "." (dump_cache_into_file (fun _ => none) (get_f_name "." "u")
        ⟨none, none, some "T", none⟩ (.val "p")) "u" none false true none false
        ⟨.otherExc, none⟩).result = .ok (.val "p")
    ∧ (get_zkb_data "." (dump_cache_into_file (fun _ => none) (get_f_name "." "u")
        ⟨none, none, some "T", none⟩ (.val "p")) "u" none false true none false
        ⟨.otherExc, none⟩).last_modified = none
    ∧ some (parsedate "T") ≠ (none : Option DateTime) :=
  ⟨rfl, rfl, by decide⟩

/-- Witness for `C5_last_modified_policy` at a concrete input. -/
theorem C5_witness :
    (true = true)
    ∧ (get_zkb_data "." (fun _ => none) "u" none false true none false
        ⟨.otherExc, none⟩).last_modified = none :=
  ⟨rfl,
   (C5_last_modified_policy "." (fun _ => none) "u" none false true none none false false
     ⟨.otherExc, none⟩).2.1 rfl⟩

end ZKB

namespace ZKB

/-- **C9** (corrected): normalization strips at most one trailing slash, so
the general form of the claim — "any path and the same path with one
trailing slash removed normalize identically" — fails when the shortened
path still ends in a slash.  Amended and proved: for any path not ending in
a slash, the path and the path with a trailing slash appended normalize to
the same cache key (in particular the two `corporationID` forms of the
claim), and a document dumped under one form is loaded under the other. -/
theorem C9_key_normalization (cache_dir url : String)
    (h : url.data.getLast? ≠ some '/') :
    get_f_name cache_dir (url ++ "/") = get_f_name cache_dir url
    ∧ get_f_name cache_dir "/corporationID/787611831/" =
        get_f_name cache_dir "/corporationID/787611831"
    ∧ ∀ (st : Cache) (hs : CacheHeaders) (j : Json),
        dump_cache_into_file st (get_f_name cache_dir (url ++ "/")) hs j
          (get_f_name cache_dir url) = some ⟨hs, j⟩ := by
  have hstrip : strip_one_trailing_slash (url ++ "/") = url := by
    unfold strip_one_trailing_slash
    have hd : (url ++ "/").data = url.data ++ ['/'] := rfl
    rw [hd, List.getLast?_concat, if_pos rfl, List.dropLast_concat]
  have hstrip2 : strip_one_trailing_slash url = url := by
    unfold strip_one_trailing_slash
    rw [if_neg h]
  have hkey : get_f_name cache_dir (url ++ "/") = get_f_name cache_dir url := by
    simp only [get_f_name, hstrip, hstrip2]
  refine ⟨hkey, rfl, ?_⟩
  intro st hs j
  rw [hkey]
  exact dump_cache_lookup_self st _ hs j

/-- **C9** counterexample: normalization strips only one trailing slash, so
`/a//` (whose "one trailing slash removed" form is `/a/`) and `/a/` map to
different cache keys, refuting the claim's general form. -/
theorem C9_counterexample : get_f_name "." "/a//" ≠ get_f_name "." "/a/" := by
  decide

/-- Witness for `C9_key_normalization` at a concrete input. -/
theorem C9_witness :
    ("/x" : String).data.getLast? ≠ some '/'
    ∧ get_f_name "." ("/x" ++ "/") = get_f_name "." "/x" :=
  ⟨by decide, (C9_key_normalization "." "/x" (by decide)).1⟩

end ZKB
